import Mathlib

/-!
# Verification of the monitoring-agent ETL pipeline

Shallow embedding of the repository's core components:

* `DataTransformer` (src/etl/transformer.py): cleaning, validation,
  deduplication and reshaping of raw Prometheus samples into
  InfluxDB-ready storage points.
* `ETLPipeline` (src/src/etl/pipeline.py): single-cycle orchestration,
  statistics accounting and health classification.

Modelling conventions:

* A raw sample is a record with the four keys the extractor
  (src/etl/extractor.py, `_parse_response`) always emits: `timestamp`,
  `metric_name`, `labels`, `value`.  A pandas DataFrame built from such a
  list therefore always has all four columns, so the `'metric_name' in
  df.columns` / `'value' in df.columns` guards in the source are always
  true and are embedded as such.
* `timestamp` is `Option Int` (`none` models a missing value / NaT, which
  `notna` filters out); `value` is `Option ℚ` (`none` models NaN in the
  float64 column, which `dropna` removes; rationals stand in for the
  finite 64-bit floats the extractor produces — every comparison the code
  performs on them, `x in [0, 1]` and `x >= 0`, is exact on the values in
  play).
* `labels` is an ordered association list of string pairs, mirroring the
  insertion-ordered Python dict `{k: v for k, v in metric.items() ...}`
  built by the extractor; keys are unique by construction there.
* The per-step DataFrame operations become passes over a `List RawSample`.
* Fallible steps return `Except String`; the `try/except` in
  `DataTransformer.transform` maps an error to the empty result.
-/

namespace MonitoringAgent

/-- One observation from the metrics source, as produced by
`PrometheusExtractor._parse_response` (src/etl/extractor.py:147-152). -/
structure RawSample where
  timestamp : Option Int
  metric_name : String
  labels : List (String × String)
  value : Option ℚ
deriving DecidableEq, Repr

/-- One cleaned, storage-ready record, as built by
`DataTransformer._to_influxdb_format` (src/etl/transformer.py:189-200):
`measurement`, a `tags` dict (modelled as an ordered association list with
dict insert/overwrite semantics), the single field `fields['value']`, and
the timestamp copied through. -/
structure StoragePoint where
  measurement : String
  tags : List (String × String)
  field_value : Option ℚ
  timestamp : Option Int
deriving DecidableEq, Repr

/-- The recognized data-cleaning options (src/etl/transformer.py:45-50),
with the defaults the constructor installs when the config omits them. -/
structure CleaningConfig where
  remove_nulls : Bool := true
  validate_timestamps : Bool := true
  remove_duplicates : Bool := true
  validate_value_ranges : Bool := true
deriving DecidableEq, Repr

/-- Default `valid_metrics` set (src/etl/transformer.py:35-42). -/
def defaultValidMetrics : List String :=
  ["up",
   "http_requests_total",
   "http_request_duration_seconds_bucket",
   "rate(http_requests_total[5m])",
   "histogram_quantile(0.95, rate(http_request_duration_seconds_bucket[5m]))",
   "rate(http_requests_total\x7bstatus=~\"5..\"\x7d[5m])"]

/-- The transformer's configuration state after `__init__`
(src/etl/transformer.py:22-50): the valid-metric set and the cleaning
options. -/
structure DataTransformer where
  valid_metrics : List String := defaultValidMetrics
  cleaning : CleaningConfig := {}
deriving DecidableEq, Repr

/-- Python dict `__setitem__` on an insertion-ordered association list:
overwrite in place when the key exists, else append. -/
def dictInsert (d : List (String × String)) (k v : String) :
    List (String × String) :=
  if d.any (fun kv => kv.1 == k) then
    d.map (fun kv => if kv.1 == k then (k, v) else kv)
  else d ++ [(k, v)]

/-- Python `dict.get(k, default)` on an association list. -/
def dictGet (d : List (String × String)) (k dflt : String) : String :=
  match d.find? (fun kv => kv.1 == k) with
  | some kv => kv.2
  | none => dflt

/-- A registered range predicate applied to a cell of the float64 `value`
column: a missing value is NaN there, and NaN fails both `x in [0, 1]`
and `x >= 0`. -/
def applyRule (v : Option ℚ) (f : ℚ → Bool) : Bool :=
  match v with
  | none => false
  | some x => f x

/-- The `validation_rules` dict of `_validate_value_ranges`
(src/etl/transformer.py:148-153), in insertion order. -/
def validation_rules : List (String × (ℚ → Bool)) :=
  [("up", fun x => x == 0 || x == 1),
   ("rate(http_requests_total[5m])", fun x => decide (0 ≤ x)),
   ("histogram_quantile(0.95, rate(http_request_duration_seconds_bucket[5m]))",
      fun x => decide (0 ≤ x)),
   ("rate(http_requests_total\x7bstatus=~\"5..\"\x7d[5m])", fun x => decide (0 ≤ x))]

/-- `DataTransformer._validate_value_ranges` (src/etl/transformer.py:132-166).
Both `metric_name` and `value` columns always exist (see module docstring),
so the early return is never taken.  For each rule `(m, p)` in insertion
order, `df = df[~(mask & ~valid_mask)]` keeps exactly the rows `r` with
`¬(r.metric_name = m ∧ ¬ p r.value)`; the `mask.any()` guard only skips a
no-op filter. -/
def DataTransformer.validate_value_ranges (_t : DataTransformer)
    (df : List RawSample) : List RawSample :=
  validation_rules.foldl
    (fun acc rule =>
      acc.filter (fun r => !(r.metric_name == rule.1 && !(applyRule r.value rule.2))))
    df

/-- `df.dropna(subset=['value'])` when `remove_nulls` is set
(src/etl/transformer.py:102-103); the `value` column is float64, so the
dropped cells are exactly the NaNs, i.e. the `none` values here. -/
def DataTransformer.removeNullsStep (t : DataTransformer) (df : List RawSample) :
    List RawSample :=
  if t.cleaning.remove_nulls then df.filter (fun r => r.value.isSome) else df

/-- `df[df['timestamp'].notna()]` when `validate_timestamps` is set
(src/etl/transformer.py:106-107). -/
def DataTransformer.validateTimestampsStep (t : DataTransformer) (df : List RawSample) :
    List RawSample :=
  if t.cleaning.validate_timestamps then df.filter (fun r => r.timestamp.isSome) else df

/-- `df[df['metric_name'].isin(self.valid_metrics)]`
(src/etl/transformer.py:110-111); the `metric_name` column always exists
(see module docstring), so this filter is unconditional. -/
def DataTransformer.metricFilterStep (t : DataTransformer) (df : List RawSample) :
    List RawSample :=
  df.filter (fun r => t.valid_metrics.contains r.metric_name)

/-- `df.drop_duplicates(subset=['timestamp', 'metric_name', 'labels'])`
when `remove_duplicates` is set (src/etl/transformer.py:114-116; the
`metric_name` column always exists, so the line-118 fallback subset is
dead code).

pandas implements `drop_duplicates` via `duplicated`, which factorizes
each subset column by hashing every cell.  The `labels` cells are Python
dicts, which are unhashable, so on any non-empty frame this call raises
`TypeError: unhashable type: 'dict'` before producing any result; on an
empty frame `duplicated` short-circuits and nothing is hashed.  The
embedding returns `Except.error` in exactly the raising case and is the
identity otherwise (deduplicating an empty frame is the identity). -/
def DataTransformer.dedupStep (t : DataTransformer) (df : List RawSample) :
    Except String (List RawSample) :=
  if t.cleaning.remove_duplicates && !df.isEmpty then
    Except.error "TypeError: unhashable type: dict"
  else Except.ok df

/-- `self._validate_value_ranges(df)` when `validate_value_ranges` is set
(src/etl/transformer.py:121-122). -/
def DataTransformer.rangeStep (t : DataTransformer) (df : List RawSample) :
    List RawSample :=
  if t.cleaning.validate_value_ranges then t.validate_value_ranges df else df

/-- `DataTransformer._clean_data` (src/etl/transformer.py:89-130): the
five configured steps in source order.  A raised `TypeError` from the
duplicate-removal step propagates out of `_clean_data` (there is no
handler inside it). -/
def DataTransformer.clean_data (t : DataTransformer) (df : List RawSample) :
    Except String (List RawSample) :=
  match t.dedupStep (t.metricFilterStep (t.validateTimestampsStep (t.removeNullsStep df))) with
  | Except.error e => Except.error e
  | Except.ok df4 => Except.ok (t.rangeStep df4)

/-- `DataTransformer._to_influxdb_format` (src/etl/transformer.py:168-213).

For each row: `service` = `labels.get('job', 'unknown')`, `instance` =
`labels.get('instance', 'unknown')`, `metric_type` = the row's
`metric_name` (always present, so the `'unknown'` default of
`row.get('metric_name', 'unknown')` is dead); the point starts with the
three tags in that dict-insertion order, then every remaining label whose
key is neither `job` nor `instance` and whose stringified value is
strictly shorter than 100 characters is added as a tag (label values are
already strings, so `str` is the identity).  In this typed embedding no
per-row operation can raise, so the per-row `try/except` never skips a
row and the step is a total map. -/
def DataTransformer.to_influxdb_format (_t : DataTransformer)
    (df : List RawSample) : List StoragePoint :=
  df.map (fun row =>
    let labels := row.labels
    let service := dictGet labels "job" "unknown"
    let instanceTag := dictGet labels "instance" "unknown"
    let baseTags := [("service", service), ("instance", instanceTag),
                     ("metric_type", row.metric_name)]
    let tags := labels.foldl
      (fun acc kv =>
        if kv.1 != "job" && kv.1 != "instance" && decide (kv.2.length < 100) then
          dictInsert acc kv.1 kv.2
        else acc)
      baseTags
    { measurement := "health_metrics",
      tags := tags,
      field_value := row.value,
      timestamp := row.timestamp })

/-- `DataTransformer.transform` (src/etl/transformer.py:52-87): empty
input returns `[]` before the `try` block; inside it, a raised exception
(here: from `_clean_data`) is caught and mapped to `[]`; an empty cleaned
frame returns `[]`; otherwise the reshaped points are returned. -/
def DataTransformer.transform (t : DataTransformer) (raw_data : List RawSample) :
    List StoragePoint :=
  if raw_data.isEmpty then []
  else
    match t.clean_data raw_data with
    | Except.error _ => []
    | Except.ok df => if df.isEmpty then [] else t.to_influxdb_format df

/-!
## Pipeline orchestrator (src/src/etl/pipeline.py)

`run_single_cycle` calls three injected components (`self.extractor`,
`self.transformer`, `self.loader`); the embedding takes the extractor's
result, the transformer's `transform`, and the loader's `load_data` as
explicit parameters, plus the cycle start time and the current statistics,
and returns the cycle's boolean result together with the updated
statistics.  In this typed embedding none of the component calls raises,
so the surrounding `except` branch (lines 265-268) is unreachable; the
`load_data`-failure branch is the one the embedded function exposes.
-/

/-- `self.stats` of `ETLPipeline.__init__` (src/src/etl/pipeline.py:49-55). -/
structure PipelineStats where
  cycles_completed : Nat := 0
  cycles_failed : Nat := 0
  total_data_points : Nat := 0
  last_run_time : Option Int := none
  start_time : Option Int := none
deriving DecidableEq, Repr

/-- `ETLPipeline.run_single_cycle` (src/src/etl/pipeline.py:213-268):
empty extraction → successful cycle (`cycles_completed += 1`,
`last_run_time` set, return True); empty transformation result → the
same; otherwise `loader.load_data` decides: on True, `cycles_completed`,
`total_data_points` and `last_run_time` are updated and the cycle
succeeds; on False, only `cycles_failed` is incremented and the cycle
fails.  There is no retry anywhere in the function body. -/
def run_single_cycle (extracted : List RawSample)
    (transformF : List RawSample → List StoragePoint)
    (load_data : List StoragePoint → Bool)
    (cycle_start_time : Int) (stats : PipelineStats) : Bool × PipelineStats :=
  if extracted.isEmpty then
    (true, { stats with
              cycles_completed := stats.cycles_completed + 1,
              last_run_time := some cycle_start_time })
  else
    let transformed := transformF extracted
    if transformed.isEmpty then
      (true, { stats with
                cycles_completed := stats.cycles_completed + 1,
                last_run_time := some cycle_start_time })
    else if load_data transformed then
      (true, { stats with
                cycles_completed := stats.cycles_completed + 1,
                total_data_points := stats.total_data_points + transformed.length,
                last_run_time := some cycle_start_time })
    else
      (false, { stats with cycles_failed := stats.cycles_failed + 1 })

/-- The `success_rate` computed by `ETLPipeline.get_statistics`
(src/src/etl/pipeline.py:362-363): `completed / total * 100` when at
least one cycle has run, else `0`. -/
def success_rate (completed failed : Nat) : ℚ :=
  if completed + failed > 0 then (completed : ℚ) / ((completed : ℚ) + (failed : ℚ)) * 100
  else 0

/-- The `status` field of `ETLPipeline.get_health_status`
(src/src/etl/pipeline.py:376-404).  `enable_metrics` is
`monitoring_config.get('enable_metrics', True)`; when it is false the
function returns `{'status': 'monitoring_disabled'}` at once.  Otherwise
`health_status` starts as `'healthy'` and, once `total_cycles > 0`, is
downgraded to `'critical'` when the success rate is `< 50` and to
`'warning'` when it is `< 80`. -/
def get_health_status (enable_metrics : Bool) (stats : PipelineStats) : String :=
  if !enable_metrics then "monitoring_disabled"
  else
    let total := stats.cycles_completed + stats.cycles_failed
    let rate := success_rate stats.cycles_completed stats.cycles_failed
    if total > 0 then
      if rate < 50 then "critical"
      else if rate < 80 then "warning"
      else "healthy"
    else "healthy"

/-!
## Concrete instances used by the claims
-/

/-- Transformer with the default configuration installed by `__init__`
when the config dictionary carries no `transform` section: all four
cleaning options on, default metric allow-list. -/
def defaultTransformer : DataTransformer := {}

/-- Transformer configured with `data_cleaning.remove_duplicates = false`
and everything else at its default (in particular range validation on).
This is a legitimate configuration of the source constructor and the only
kind under which a sample can reach the reshape stage, since the
duplicate-removal step raises on every non-empty frame. -/
def noDedupTransformer : DataTransformer :=
  { cleaning := { remove_duplicates := false } }

/-- The end-to-end scenario sample:
`{ts: 1000, metric_name: "up", labels: {job: "test-app",
instance: "localhost:8080"}, value: 1.0}`. -/
def upSample : RawSample :=
  ⟨some 1000, "up", [("job", "test-app"), ("instance", "localhost:8080")], some 1⟩

/-- First of a duplicated pair: identical to `dupSampleB` on
`(timestamp, metric_name, labels)`, but with value 1. -/
def dupSampleA : RawSample := ⟨some 0, "up", [("job", "a")], some 1⟩

/-- Second of a duplicated pair: identical to `dupSampleA` on
`(timestamp, metric_name, labels)`, but with value 0. -/
def dupSampleB : RawSample := ⟨some 0, "up", [("job", "a")], some 0⟩

/-- Availability sample with the out-of-range value 2. -/
def up2Sample : RawSample := ⟨some 0, "up", [("job", "a")], some 2⟩

/-- Availability sample with the in-range value 1. -/
def up1Sample : RawSample := ⟨some 0, "up", [("job", "a")], some 1⟩

/-- Request-rate sample with a negative value. -/
def rateNegSample : RawSample :=
  ⟨some 0, "rate(http_requests_total[5m])", [], some (-1)⟩

/-- Latency-quantile sample with a negative value. -/
def latencyNegSample : RawSample :=
  ⟨some 0,
   "histogram_quantile(0.95, rate(http_request_duration_seconds_bucket[5m]))",
   [], some (-1)⟩

/-- Error-rate sample with a negative value. -/
def errorRateNegSample : RawSample :=
  ⟨some 0, "rate(http_requests_total\x7bstatus=~\"5..\"\x7d[5m])", [], some (-1)⟩

/-- Sample whose metric is on the allow-list but has no registered range
predicate, carrying a negative value. -/
def noPredicateSample : RawSample := ⟨some 0, "http_requests_total", [], some (-5)⟩

/-- Sample carrying one extra label `extra` with an arbitrary value, used
for the cardinality-guard claim. -/
def labelSample (v : String) : RawSample :=
  ⟨some 0, "up", [("job", "a"), ("instance", "b"), ("extra", v)], some 1⟩

/-- The three tags every point reshaped from `labelSample` starts with. -/
def basePointTags : List (String × String) :=
  [("service", "a"), ("instance", "b"), ("metric_type", "up")]

/-- A 150-character label value. -/
def longLabelValue : String := String.mk (List.replicate 150 'a')

/-- A 50-character label value. -/
def shortLabelValue : String := String.mk (List.replicate 50 'b')

/-!
## Helper lemmas
-/

/-- A fold of filters never lengthens the list. -/
theorem length_foldl_filter_le {α β : Type} (p : β → α → Bool)
    (rules : List β) (df : List α) :
    (rules.foldl (fun acc rule => acc.filter (p rule)) df).length ≤ df.length := by
  induction rules generalizing df with
  | nil => simp
  | cons r rs ih => exact le_trans (ih (df.filter (p r))) (List.length_filter_le _ _)

/-- Range validation only removes rows. -/
theorem validate_value_ranges_length_le (t : DataTransformer) (df : List RawSample) :
    (t.validate_value_ranges df).length ≤ df.length := by
  unfold DataTransformer.validate_value_ranges
  exact length_foldl_filter_le _ validation_rules df

/-- The null filter only removes rows. -/
theorem removeNullsStep_length_le (t : DataTransformer) (df : List RawSample) :
    (t.removeNullsStep df).length ≤ df.length := by
  unfold DataTransformer.removeNullsStep
  split
  · exact List.length_filter_le _ _
  · exact le_rfl

/-- The timestamp filter only removes rows. -/
theorem validateTimestampsStep_length_le (t : DataTransformer) (df : List RawSample) :
    (t.validateTimestampsStep df).length ≤ df.length := by
  unfold DataTransformer.validateTimestampsStep
  split
  · exact List.length_filter_le _ _
  · exact le_rfl

/-- The metric allow-list filter only removes rows. -/
theorem metricFilterStep_length_le (t : DataTransformer) (df : List RawSample) :
    (t.metricFilterStep df).length ≤ df.length :=
  List.length_filter_le _ _

/-- The range-validation step only removes rows. -/
theorem rangeStep_length_le (t : DataTransformer) (df : List RawSample) :
    (t.rangeStep df).length ≤ df.length := by
  unfold DataTransformer.rangeStep
  split
  · exact validate_value_ranges_length_le _ _
  · exact le_rfl

/-- When the duplicate-removal step does not raise, it returns its input
frame unchanged. -/
theorem dedupStep_ok {t : DataTransformer} {df dfOut : List RawSample}
    (h : t.dedupStep df = Except.ok dfOut) : dfOut = df := by
  unfold DataTransformer.dedupStep at h
  split at h
  · exact Except.noConfusion h
  · injection h with h
    exact h.symm

/-- A successful cleaning pass only removes rows. -/
theorem clean_data_length_le {t : DataTransformer} {raw df : List RawSample}
    (h : t.clean_data raw = Except.ok df) : df.length ≤ raw.length := by
  unfold DataTransformer.clean_data at h
  cases hd : t.dedupStep (t.metricFilterStep (t.validateTimestampsStep (t.removeNullsStep raw))) with
  | error e => rw [hd] at h; exact Except.noConfusion h
  | ok df4 =>
    rw [hd] at h
    injection h with h
    subst h
    have h4 := dedupStep_ok hd
    subst h4
    exact (rangeStep_length_le _ _).trans
      ((metricFilterStep_length_le _ _).trans
        ((validateTimestampsStep_length_le _ _).trans (removeNullsStep_length_le _ _)))

/-- Reshaping produces exactly one point per surviving row. -/
theorem to_influxdb_format_length (t : DataTransformer) (df : List RawSample) :
    (t.to_influxdb_format df).length = df.length := by
  simp [DataTransformer.to_influxdb_format]

/-!
## Claim theorems
-/

/-- C1: two RawSamples identical on `(timestamp, metric_name, labels)`
but with differing values are claimed to yield exactly one StoragePoint
under `remove_duplicates`, keeping the first occurrence.  On the code,
with the default configuration (deduplication enabled), `transform` on
such a pair yields zero points, not one: `drop_duplicates` hashes the
dict-valued `labels` column, raises `TypeError`, and the batch is
discarded by `transform`'s exception handler. -/
theorem dedup_pair_zero_points :
    defaultTransformer.transform [dupSampleA, dupSampleB] = [] ∧
    (defaultTransformer.transform [dupSampleA, dupSampleB]).length ≠ 1 :=
  ⟨rfl, by decide⟩

/-- C2: `transform` never fails its caller (it is a total function whose
internal error path is mapped to `[]`: the third conjunct shows any
exception escaping `_clean_data` yields `[]`), its output is never longer
than its input, and empty input yields empty output. -/
theorem transform_total_and_shrinking (t : DataTransformer) (raw : List RawSample) :
    (t.transform raw).length ≤ raw.length ∧ t.transform [] = [] ∧
    (∀ e, t.clean_data raw = Except.error e → t.transform raw = []) := by
  refine ⟨?_, rfl, ?_⟩
  · unfold DataTransformer.transform
    split
    · simp
    · split
      · simp
      · rename_i df4 heq
        split
        · simp
        · rw [to_influxdb_format_length]
          exact clean_data_length_le heq
  · intro e he
    unfold DataTransformer.transform
    split
    · rfl
    · rw [he]

/-- Witness for C2 at a concrete input: the default configuration on a
duplicated pair takes the error path of the third conjunct. -/
theorem transform_total_and_shrinking_witness :
    defaultTransformer.transform [dupSampleB, dupSampleA] = [] :=
  (transform_total_and_shrinking defaultTransformer [dupSampleB, dupSampleA]).2.2
    "TypeError: unhashable type: dict" rfl

/-- C3: with the extractor returning the one valid sample `upSample`, a
transformer configuration under which the sample reaches the loader
(deduplication disabled; under the default configuration the
dict-hashing `TypeError` would empty the batch first), and a loader
whose `load_data` reports failure, `run_single_cycle` returns failure,
increments `cycles_failed` by exactly 1, and leaves `total_data_points`
(and `cycles_completed`) unchanged; the function body contains no retry. -/
theorem load_failure_cycle_accounting (stats : PipelineStats) (now : Int) :
    (run_single_cycle [upSample] noDedupTransformer.transform (fun _ => false) now stats).1
        = false ∧
    (run_single_cycle [upSample] noDedupTransformer.transform (fun _ => false) now
        stats).2.cycles_failed = stats.cycles_failed + 1 ∧
    (run_single_cycle [upSample] noDedupTransformer.transform (fun _ => false) now
        stats).2.total_data_points = stats.total_data_points ∧
    (run_single_cycle [upSample] noDedupTransformer.transform (fun _ => false) now
        stats).2.cycles_completed = stats.cycles_completed :=
  ⟨rfl, rfl, rfl, rfl⟩

/-- C4: with the extractor returning an empty sequence, `run_single_cycle`
returns success, increments `cycles_completed`, leaves `cycles_failed`
unchanged, and records zero data points (`total_data_points` unchanged) —
a successful empty cycle for any transformer and loader. -/
theorem empty_extraction_successful_cycle
    (transformF : List RawSample → List StoragePoint)
    (load_data : List StoragePoint → Bool) (now : Int) (stats : PipelineStats) :
    (run_single_cycle [] transformF load_data now stats).1 = true ∧
    (run_single_cycle [] transformF load_data now stats).2.cycles_completed
        = stats.cycles_completed + 1 ∧
    (run_single_cycle [] transformF load_data now stats).2.cycles_failed
        = stats.cycles_failed ∧
    (run_single_cycle [] transformF load_data now stats).2.total_data_points
        = stats.total_data_points :=
  ⟨rfl, rfl, rfl, rfl⟩

/-- C5: with range validation enabled (and deduplication disabled, so
that samples survive to the predicate stage at all — see C1), `transform`
drops the availability metric `up` at value 2 and keeps it at value 1;
it drops the request-rate, latency-quantile and error-rate metrics at
negative values; and a metric on the allow-list with no registered
predicate passes through unconditionally, even with a negative value. -/
theorem range_validation_behavior :
    noDedupTransformer.transform [up2Sample] = [] ∧
    noDedupTransformer.transform [up1Sample] =
      [⟨"health_metrics", [("service", "a"), ("instance", "unknown"), ("metric_type", "up")],
        some 1, some 0⟩] ∧
    noDedupTransformer.transform [rateNegSample] = [] ∧
    noDedupTransformer.transform [latencyNegSample] = [] ∧
    noDedupTransformer.transform [errorRateNegSample] = [] ∧
    noDedupTransformer.transform [noPredicateSample] =
      [⟨"health_metrics",
        [("service", "unknown"), ("instance", "unknown"), ("metric_type", "http_requests_total")],
        some (-5), some 0⟩] :=
  ⟨rfl, rfl, rfl, rfl, rfl, rfl⟩

/-- C7: the end-to-end scenario.  The claim expects exactly one
StoragePoint with measurement `health_metrics`, tags
`{service: test-app, instance: localhost:8080, metric_type: up}`, field
value 1.0 and the input timestamp.  Under the default configuration the
code instead produces zero points (the dict-hashing `TypeError` of the
deduplication step empties the batch); with deduplication disabled it
produces exactly the claimed point, confirming the rest of the reshape
logic. -/
theorem end_to_end_scenario :
    defaultTransformer.transform [upSample] = [] ∧
    noDedupTransformer.transform [upSample] =
      [⟨"health_metrics",
        [("service", "test-app"), ("instance", "localhost:8080"), ("metric_type", "up")],
        some 1, some 1000⟩] :=
  ⟨rfl, rfl⟩

/-- C9: `transform` is deterministic — it is a pure function of the
configuration and the input, so two runs on the same input yield the same
StoragePoint sequence. -/
theorem transform_deterministic (t : DataTransformer) (raw : List RawSample)
    (out₁ out₂ : List StoragePoint)
    (h₁ : out₁ = t.transform raw) (h₂ : out₂ = t.transform raw) : out₁ = out₂ :=
  h₁.trans h₂.symm

/-- Witness for C9: two runs on the end-to-end sample agree. -/
theorem transform_deterministic_witness :
    noDedupTransformer.transform [upSample] = noDedupTransformer.transform [upSample] :=
  transform_deterministic noDedupTransformer [upSample] _ _ rfl rfl

/-- C10: if an exception escapes the cleaning stage inside `transform`'s
`try` block, the entire batch is discarded: `transform` returns `[]`. -/
theorem clean_error_discards_batch (t : DataTransformer) (raw : List RawSample)
    (e : String) (h : t.clean_data raw = Except.error e) : t.transform raw = [] := by
  unfold DataTransformer.transform
  split
  · rfl
  · rw [h]

/-- Witness for C10: under the default configuration the cleaning stage
raises on the end-to-end sample, and the whole batch is discarded. -/
theorem clean_error_discards_batch_witness :
    defaultTransformer.clean_data [upSample]
        = Except.error "TypeError: unhashable type: dict" ∧
    defaultTransformer.transform [upSample] = [] :=
  ⟨rfl, clean_error_discards_batch defaultTransformer [upSample]
    "TypeError: unhashable type: dict" rfl⟩

/-- C6: during reshape, a label other than `job`/`instance` whose value
is 100 characters or longer is excluded entirely from the resulting tag
set (not truncated), while a label value shorter than 100 characters is
included as a tag. -/
theorem cardinality_guard (v : String) :
    (100 ≤ v.length →
      defaultTransformer.to_influxdb_format [labelSample v] =
        [⟨"health_metrics", basePointTags, some 1, some 0⟩]) ∧
    (v.length < 100 →
      defaultTransformer.to_influxdb_format [labelSample v] =
        [⟨"health_metrics", basePointTags ++ [("extra", v)], some 1, some 0⟩]) := by
  constructor
  · intro h
    have hd : decide (v.length < 100) = false := decide_eq_false (Nat.not_lt.mpr h)
    simp only [DataTransformer.to_influxdb_format, labelSample, basePointTags, dictGet,
      dictInsert, hd, List.map, List.foldl, List.find?, List.any, Bool.and_false,
      Bool.false_and, Bool.and_true, Bool.true_and, if_false, if_true]
    simp [h]
  · intro h
    have hd : decide (v.length < 100) = true := decide_eq_true h
    simp only [DataTransformer.to_influxdb_format, labelSample, basePointTags, dictGet,
      dictInsert, hd, List.map, List.foldl, List.find?, List.any, Bool.and_false,
      Bool.false_and, Bool.and_true, Bool.true_and, if_false, if_true]
    simp [h]

set_option maxRecDepth 4000 in
/-- Witness for C6: a 150-character label value is excluded from the tag
set entirely; a 50-character label value is included. -/
theorem cardinality_guard_witness :
    defaultTransformer.to_influxdb_format [labelSample longLabelValue] =
      [⟨"health_metrics", basePointTags, some 1, some 0⟩] ∧
    defaultTransformer.to_influxdb_format [labelSample shortLabelValue] =
      [⟨"health_metrics", basePointTags ++ [("extra", shortLabelValue)], some 1, some 0⟩] :=
  ⟨(cardinality_guard longLabelValue).1 (by decide),
   (cardinality_guard shortLabelValue).2 (by decide)⟩

/-- With monitoring enabled and at least one cycle recorded, the health
status is computed from the success rate by the source's
`critical`/`warning`/`healthy` cascade. -/
theorem health_eq (c f : Nat) (h : 0 < c + f) :
    get_health_status true ⟨c, f, 0, none, none⟩ =
      (if success_rate c f < 50 then "critical"
       else if success_rate c f < 80 then "warning" else "healthy") := by
  unfold get_health_status
  simp [h]

/-- C8: `get_health_status` reports `monitoring_disabled` whenever
monitoring is disabled; reports `healthy` when no cycle has run; and,
once at least one cycle has run, classifies the cumulative success rate
as `healthy` iff it is ≥ 80, `warning` iff it is in [50, 80), and
`critical` iff it is < 50. -/
theorem health_classification (c f : Nat) :
    (∀ s : PipelineStats, get_health_status false s = "monitoring_disabled") ∧
    (c + f = 0 → get_health_status true ⟨c, f, 0, none, none⟩ = "healthy") ∧
    (0 < c + f →
      ((get_health_status true ⟨c, f, 0, none, none⟩ = "healthy" ↔
          80 ≤ success_rate c f) ∧
       (get_health_status true ⟨c, f, 0, none, none⟩ = "warning" ↔
          50 ≤ success_rate c f ∧ success_rate c f < 80) ∧
       (get_health_status true ⟨c, f, 0, none, none⟩ = "critical" ↔
          success_rate c f < 50))) := by
  refine ⟨fun s => rfl, ?_, ?_⟩
  · intro h
    unfold get_health_status
    simp [h]
  · intro h
    rw [health_eq c f h]
    by_cases h1 : success_rate c f < 50
    · rw [if_pos h1]
      refine ⟨⟨fun hh => absurd hh (by decide), fun hh => absurd h1 (not_lt.mpr (by linarith))⟩,
        ⟨fun hh => absurd hh (by decide), fun hh => absurd h1 (not_lt.mpr hh.1)⟩,
        ⟨fun _ => h1, fun _ => rfl⟩⟩
    · by_cases h2 : success_rate c f < 80
      · rw [if_neg h1, if_pos h2]
        refine ⟨⟨fun hh => absurd hh (by decide), fun hh => absurd h2 (not_lt.mpr hh)⟩,
          ⟨fun _ => ⟨not_lt.mp h1, h2⟩, fun _ => rfl⟩,
          ⟨fun hh => absurd hh (by decide), fun hh => absurd hh h1⟩⟩
      · rw [if_neg h1, if_neg h2]
        refine ⟨⟨fun _ => not_lt.mp h2, fun _ => rfl⟩,
          ⟨fun hh => absurd hh (by decide), fun hh => absurd hh.2 h2⟩,
          ⟨fun hh => absurd hh (by decide), fun hh => absurd hh h1⟩⟩

/-- Witness for C8: 9/10 successful cycles → healthy; 6/10 → warning;
3/10 → critical; no cycles → healthy; monitoring disabled →
monitoring_disabled. -/
theorem health_classification_witness :
    get_health_status true ⟨9, 1, 0, none, none⟩ = "healthy" ∧
    get_health_status true ⟨6, 4, 0, none, none⟩ = "warning" ∧
    get_health_status true ⟨3, 7, 0, none, none⟩ = "critical" ∧
    get_health_status true ⟨0, 0, 0, none, none⟩ = "healthy" ∧
    get_health_status false ⟨9, 1, 0, none, none⟩ = "monitoring_disabled" := by
  refine ⟨((health_classification 9 1).2.2 (by norm_num)).1.mpr ?_,
          ((health_classification 6 4).2.2 (by norm_num)).2.1.mpr ?_,
          ((health_classification 3 7).2.2 (by norm_num)).2.2.mpr ?_,
          (health_classification 0 0).2.1 rfl,
          (health_classification 9 1).1 ⟨9, 1, 0, none, none⟩⟩
  · norm_num [success_rate]
  · constructor <;> norm_num [success_rate]
  · norm_num [success_rate]

end MonitoringAgent
